import Mathlib

/-!
Verification of the registry-ingress manifest builder
(`cmd/apps/registry_ingress_app.go`).

The development shallowly embeds the Go source: the two YAML template
constants are copied verbatim (braces written with hex escapes), a small
model of `text/template` parsing and execution over the seven fields of
`RegInputData` is defined, and `buildRegistryYAML` plus the command's
`RunE` body are translated as pure functions.  Substring claims about the
rendered output are stated with an explicit occurrence predicate over
`List Char`.
-/

set_option maxRecDepth 100000

/-! Part 1: definitions.  Pure functions and data translated from the
source, plus the executable predicates used in theorem statements. -/

/-- Test whether `p` is a prefix of `s`. -/
def startsList : List Char → List Char → Bool
  | [], _ => true
  | _ :: _, [] => false
  | a :: as, b :: bs => a == b && startsList as bs

/-- Test whether `p` occurs as a contiguous segment of `s`. -/
def occursB (p : List Char) : List Char → Bool
  | [] => p.isEmpty
  | c :: cs => startsList p (c :: cs) || occursB p cs

/-- Number of positions of `s` at which `p` occurs as a contiguous segment. -/
def occCount (p : List Char) : List Char → Nat
  | [] => if p.isEmpty then 1 else 0
  | c :: cs => (if startsList p (c :: cs) then 1 else 0) + occCount p cs

/-- Proposition: `p` occurs as a contiguous segment of `s`. -/
def Occurs (p s : List Char) : Prop := ∃ a b, s = a ++ (p ++ b)

/-- Test whether the last element of `l` is `c`. -/
def lastIs (c : Char) (l : List Char) : Bool := l.getLast? == some c

/-- Test whether the first element of `l` is `c`. -/
def headIs (c : Char) (l : List Char) : Bool :=
  match l with
  | [] => false
  | d :: _ => d == c

/-- The seven fields of the Go struct `RegInputData`. -/
inductive TField where
  | IngressDomain
  | CertmanagerEmail
  | IngressClass
  | Namespace
  | NginxMaxBuffer
  | IssuerType
  | IssuerAPI
deriving DecidableEq

/-- Translation of `type RegInputData struct` with its seven string fields. -/
structure RegInputData where
  IngressDomain : String
  CertmanagerEmail : String
  IngressClass : String
  Namespace : String
  NginxMaxBuffer : String
  IssuerType : String
  IssuerAPI : String

/-- A node of a parsed `text/template`: literal text or a field action. -/
inductive TNode where
  | lit (s : String)
  | fvar (f : TField)
deriving DecidableEq

/-- The Go constant `registryIngressExtensionsYamlTemplate`, verbatim
(template braces written as hex escapes). -/
def registryIngressExtensionsYamlTemplate : String := "
apiVersion: extensions/v1beta1
kind: Ingress
metadata:
  name: docker-registry
  namespace: \x7b\x7b.Namespace\x7d\x7d
  annotations:
    cert-manager.io/issuer: \x7b\x7b.IssuerType\x7d\x7d
    kubernetes.io/ingress.class: \x7b\x7b.IngressClass\x7d\x7d
\x7b\x7b.NginxMaxBuffer\x7d\x7d
spec:
  rules:
  - host: \x7b\x7b.IngressDomain\x7d\x7d
    http:
      paths:
      - backend:
          serviceName: docker-registry
          servicePort: 5000
        path: /
  tls:
  - hosts:
    - \x7b\x7b.IngressDomain\x7d\x7d
    secretName: docker-registry
---
apiVersion: cert-manager.io/v1
kind: Issuer
metadata:
  name: \x7b\x7b.IssuerType\x7d\x7d
  namespace: \x7b\x7b.Namespace\x7d\x7d
spec:
  acme:
    email: \x7b\x7b.CertmanagerEmail\x7d\x7d
    server: \x7b\x7b.IssuerAPI\x7d\x7d
    privateKeySecretRef:
      name: \x7b\x7b.IssuerType\x7d\x7d
    solvers:
    - http01:
        ingress:
          class: \x7b\x7b.IngressClass\x7d\x7d"

/-- The Go constant `registryIngressNetworkingYamlTemplate`, verbatim
(template braces written as hex escapes).  Note that `buildRegistryYAML`
never references it. -/
def registryIngressNetworkingYamlTemplate : String := "
apiVersion: networking.k8s.io/v1
kind: Ingress
metadata:
  name: docker-registry
  namespace: \x7b\x7b.Namespace\x7d\x7d
  annotations:
    cert-manager.io/issuer: \x7b\x7b.IssuerType\x7d\x7d
    kubernetes.io/ingress.class: \x7b\x7b.IngressClass\x7d\x7d
\x7b\x7b.NginxMaxBuffer\x7d\x7d
spec:
  rules:
  - host: \x7b\x7b.IngressDomain\x7d\x7d
    http:
      paths:
      - path: /
        pathType: ImplementationSpecific
        backend:
          service
            name: docker-registry
            port:
              number: 5000
  tls:
  - hosts:
    - \x7b\x7b.IngressDomain\x7d\x7d
    secretName: docker-registry
---
apiVersion: cert-manager.io/v1
kind: Issuer
metadata:
  name: \x7b\x7b.IssuerType\x7d\x7d
  namespace: \x7b\x7b.Namespace\x7d\x7d
spec:
  acme:
    email: \x7b\x7b.CertmanagerEmail\x7d\x7d
    server: \x7b\x7b.IssuerAPI\x7d\x7d
    privateKeySecretRef:
      name: \x7b\x7b.IssuerType\x7d\x7d
    solvers:
    - http01:
        ingress:
          class: \x7b\x7b.IngressClass\x7d\x7d"

/-- Resolve a field name appearing in a template action. -/
def fieldNamed (s : String) : Option TField :=
  if s = "IngressDomain" then some TField.IngressDomain
  else if s = "CertmanagerEmail" then some TField.CertmanagerEmail
  else if s = "IngressClass" then some TField.IngressClass
  else if s = "Namespace" then some TField.Namespace
  else if s = "NginxMaxBuffer" then some TField.NginxMaxBuffer
  else if s = "IssuerType" then some TField.IssuerType
  else if s = "IssuerAPI" then some TField.IssuerAPI
  else none

/-- Read the longest alphabetic run at the front of the input. -/
def takeName : List Char → List Char × List Char
  | [] => ([], [])
  | c :: cs =>
    if c.isAlpha then
      let p := takeName cs
      (c :: p.1, p.2)
    else ([], c :: cs)

/-- Fuelled template scanner: literal text plus field actions of the form
used by the two registry-ingress templates. -/
def parseNodes : Nat → List Char → Option (List TNode)
  | 0, _ => none
  | _, [] => some []
  | fuel + 1, '{' :: '{' :: '.' :: cs =>
    let p := takeName cs
    match p.2 with
    | '}' :: '}' :: rest2 =>
      match fieldNamed (String.mk p.1) with
      | some f => (parseNodes fuel rest2).map (fun ns => TNode.fvar f :: ns)
      | none => none
    | _ => none
  | fuel + 1, c :: cs =>
    (parseNodes fuel cs).map (fun ns =>
      match ns with
      | TNode.lit s :: rest => TNode.lit (String.mk (c :: s.data)) :: rest
      | _ => TNode.lit (String.mk [c]) :: ns)

/-- Parse a template string. -/
def parseTemplate (s : String) : Option (List TNode) :=
  parseNodes (s.length + 1) s.data

/-- Value of a `RegInputData` field. -/
def fieldVal (d : RegInputData) : TField → String
  | TField.IngressDomain => d.IngressDomain
  | TField.CertmanagerEmail => d.CertmanagerEmail
  | TField.IngressClass => d.IngressClass
  | TField.Namespace => d.Namespace
  | TField.NginxMaxBuffer => d.NginxMaxBuffer
  | TField.IssuerType => d.IssuerType
  | TField.IssuerAPI => d.IssuerAPI

/-- Output of one template node under `Execute`. -/
def evalNode (d : RegInputData) : TNode → String
  | TNode.lit s => s
  | TNode.fvar f => fieldVal d f

/-- Execution of the template: concatenate the outputs of all nodes. -/
def render (d : RegInputData) : List TNode → String
  | [] => ""
  | n :: ns => evalNode d n ++ render d ns

/-- Translation of `buildRegistryYAML(domain, email, ingressClass,
namespace, maxSize string, staging, hasNetworking bool) ([]byte, error)`.
As in the source, the template is always
`registryIngressExtensionsYamlTemplate` and `hasNetworking` is unused. -/
def buildRegistryYAML (domain email ingressClass nspace maxSize : String)
    (staging hasNetworking : Bool) : Except String String :=
  let tmplString := registryIngressExtensionsYamlTemplate
  match parseTemplate tmplString with
  | none => Except.error "template: parse error"
  | some nodes =>
    let inputData : RegInputData :=
      { IngressDomain := domain
        CertmanagerEmail := email
        IngressClass := ingressClass
        Namespace := nspace
        IssuerType := "letsencrypt-prod-issuer"
        IssuerAPI := "https://acme-v02.api.letsencrypt.org/directory"
        NginxMaxBuffer := "" }
    let inputData :=
      if staging then
        { inputData with
          IssuerType := "letsencrypt-staging-issuer"
          IssuerAPI := "https://acme-staging-v02.api.letsencrypt.org/directory" }
      else inputData
    let inputData :=
      if ingressClass == "nginx" then
        { inputData with
          NginxMaxBuffer := "    nginx.ingress.kubernetes.io/proxy-body-size: " ++ maxSize }
      else inputData
    Except.ok (render inputData nodes)

/-- Literal segment before the first `Namespace` action. -/
def L0 : String := "\napiVersion: extensions/v1beta1\nkind: Ingress\nmetadata:\n  name: docker-registry\n  namespace: "

/-- Literal segment before the first `IssuerType` action. -/
def L1 : String := "\n  annotations:\n    cert-manager.io/issuer: "

/-- Literal segment before the first `IngressClass` action. -/
def L2 : String := "\n    kubernetes.io/ingress.class: "

/-- Literal segment before the first `IngressDomain` action (rule host). -/
def L3 : String := "\nspec:\n  rules:\n  - host: "

/-- Literal segment before the second `IngressDomain` action (TLS hosts). -/
def L4 : String := "\n    http:\n      paths:\n      - backend:\n          serviceName: docker-registry\n          servicePort: 5000\n        path: /\n  tls:\n  - hosts:\n    - "

/-- Literal segment before the second `IssuerType` action. -/
def L5 : String := "\n    secretName: docker-registry\n---\napiVersion: cert-manager.io/v1\nkind: Issuer\nmetadata:\n  name: "

/-- Literal segment before the second `Namespace` action. -/
def L6 : String := "\n  namespace: "

/-- Literal segment before the `CertmanagerEmail` action. -/
def L7 : String := "\nspec:\n  acme:\n    email: "

/-- Literal segment before the `IssuerAPI` action. -/
def L8 : String := "\n    server: "

/-- Literal segment before the third `IssuerType` action. -/
def L9 : String := "\n    privateKeySecretRef:\n      name: "

/-- Literal segment before the final `IngressClass` action. -/
def L10 : String := "\n    solvers:\n    - http01:\n        ingress:\n          class: "

/-- The parse of `registryIngressExtensionsYamlTemplate`. -/
def extNodes : List TNode :=
  [TNode.lit L0, TNode.fvar TField.Namespace,
   TNode.lit L1, TNode.fvar TField.IssuerType,
   TNode.lit L2, TNode.fvar TField.IngressClass,
   TNode.lit "\n", TNode.fvar TField.NginxMaxBuffer,
   TNode.lit L3, TNode.fvar TField.IngressDomain,
   TNode.lit L4, TNode.fvar TField.IngressDomain,
   TNode.lit L5, TNode.fvar TField.IssuerType,
   TNode.lit L6, TNode.fvar TField.Namespace,
   TNode.lit L7, TNode.fvar TField.CertmanagerEmail,
   TNode.lit L8, TNode.fvar TField.IssuerAPI,
   TNode.lit L9, TNode.fvar TField.IssuerType,
   TNode.lit L10, TNode.fvar TField.IngressClass]

/-- Issuer name as selected by the `staging` flag. -/
def issuerTypeOf (staging : Bool) : String :=
  if staging then "letsencrypt-staging-issuer" else "letsencrypt-prod-issuer"

/-- ACME directory URL as selected by the `staging` flag. -/
def issuerAPIOf (staging : Bool) : String :=
  if staging then "https://acme-staging-v02.api.letsencrypt.org/directory"
  else "https://acme-v02.api.letsencrypt.org/directory"

/-- Fixed leading part of the proxy-body-size annotation line. -/
def proxyBodySizeLineStart : String := "    nginx.ingress.kubernetes.io/proxy-body-size: "

/-- Value of `NginxMaxBuffer` as selected by the ingress class. -/
def nginxBufferOf (ingressClass maxSize : String) : String :=
  if ingressClass == "nginx" then proxyBodySizeLineStart ++ maxSize else ""

/-- The substitution record `buildRegistryYAML` passes to `Execute`. -/
def regInput (domain email ingressClass nspace maxSize : String) (staging : Bool) :
    RegInputData :=
  { IngressDomain := domain
    CertmanagerEmail := email
    IngressClass := ingressClass
    Namespace := nspace
    NginxMaxBuffer := nginxBufferOf ingressClass maxSize
    IssuerType := issuerTypeOf staging
    IssuerAPI := issuerAPIOf staging }

/-- The rendered output, flattened to its character list. -/
def outData (d : RegInputData) : List Char :=
  L0.data ++ (d.Namespace.data ++ (L1.data ++ (d.IssuerType.data ++ (L2.data ++
  (d.IngressClass.data ++ ("\n".data ++ (d.NginxMaxBuffer.data ++ (L3.data ++
  (d.IngressDomain.data ++ (L4.data ++ (d.IngressDomain.data ++ (L5.data ++
  (d.IssuerType.data ++ (L6.data ++ (d.Namespace.data ++ (L7.data ++
  (d.CertmanagerEmail.data ++ (L8.data ++ (d.IssuerAPI.data ++ (L9.data ++
  (d.IssuerType.data ++ (L10.data ++ d.IngressClass.data))))))))))))))))))))))

/-- Result of `k8s.KubectlTask` (the fields the command inspects). -/
structure KubectlResult where
  ExitCode : Int
  Stderr : String

/-- The flag values read by `RunE` (`--kubeconfig`, `--email`, `--domain`,
`--ingress-class`, `--namespace`, `--max-size`, `--staging`). -/
structure RegIngressFlags where
  kubeconfig : String
  email : String
  domain : String
  ingressClass : String
  nspace : String
  maxSize : String
  staging : Bool

/-- The external collaborators invoked by `RunE`, given as oracles:
`config.SetKubeconfig`, `k8s.GetCapabilities` (a predicate on API-group
names), `writeTempFile` and `k8s.KubectlTask "apply" "-f"`. -/
structure RegIngressDeps where
  setKubeconfig : String → Except String Unit
  getCapabilities : Except String (String → Bool)
  writeTempFile : String → String → Except String String
  kubectlApply : String → Except String KubectlResult

/-- Stages of the command, recorded in execution order. -/
inductive RegIngressStep where
  | setKubeconfigStep
  | getCapabilitiesStep
  | renderStep
  | writeTempStep
  | applyStep
  | printStep
deriving DecidableEq

/-- Translation of the `RunE` closure of `MakeInstallRegistryIngress`:
the returned error (or unit) together with the trace of stages that ran. -/
def makeInstallRegistryIngressRunE (f : RegIngressFlags) (deps : RegIngressDeps) :
    Except String Unit × List RegIngressStep :=
  match deps.setKubeconfig f.kubeconfig with
  | Except.error e => (Except.error e, [RegIngressStep.setKubeconfigStep])
  | Except.ok _ =>
    if f.email = "" ∨ f.domain = "" then
      (Except.error "both --email and --domain flags should be set and not empty, please set these values",
       [RegIngressStep.setKubeconfigStep])
    else if f.ingressClass = "" then
      (Except.error "--ingress-class must be set", [RegIngressStep.setKubeconfigStep])
    else
      match deps.getCapabilities with
      | Except.error e =>
        (Except.error e, [RegIngressStep.setKubeconfigStep, RegIngressStep.getCapabilitiesStep])
      | Except.ok caps =>
        let hasNetworking := caps "networking.k8s.io/v1"
        match buildRegistryYAML f.domain f.email f.ingressClass f.nspace f.maxSize
            f.staging hasNetworking with
        | Except.error templateErr =>
          (Except.error templateErr,
           [RegIngressStep.setKubeconfigStep, RegIngressStep.getCapabilitiesStep,
            RegIngressStep.renderStep])
        | Except.ok yamlBytes =>
          match deps.writeTempFile yamlBytes "temp_registry_ingress.yaml" with
          | Except.error tempFileErr =>
            (Except.error tempFileErr,
             [RegIngressStep.setKubeconfigStep, RegIngressStep.getCapabilitiesStep,
              RegIngressStep.renderStep, RegIngressStep.writeTempStep])
          | Except.ok tempFile =>
            match deps.kubectlApply tempFile with
            | Except.error e =>
              (Except.error e,
               [RegIngressStep.setKubeconfigStep, RegIngressStep.getCapabilitiesStep,
                RegIngressStep.renderStep, RegIngressStep.writeTempStep,
                RegIngressStep.applyStep])
            | Except.ok res =>
              if res.ExitCode ≠ 0 then
                (Except.error ("Unable to apply YAML files.\nHave you got the Registry running and cert-manager 0.11.0 or higher installed? " ++ res.Stderr),
                 [RegIngressStep.setKubeconfigStep, RegIngressStep.getCapabilitiesStep,
                  RegIngressStep.renderStep, RegIngressStep.writeTempStep,
                  RegIngressStep.applyStep])
              else
                (Except.ok (),
                 [RegIngressStep.setKubeconfigStep, RegIngressStep.getCapabilitiesStep,
                  RegIngressStep.renderStep, RegIngressStep.writeTempStep,
                  RegIngressStep.applyStep, RegIngressStep.printStep])

/-- Proposition: `pat` occurs as a substring of `s`. -/
def strOccurs (pat s : String) : Prop := Occurs pat.data s.data

/-- None of the five user-controlled configuration strings contains `pat`. -/
def FieldsAvoid (pat dom em ic ns ms : String) : Prop :=
  ¬ strOccurs pat dom ∧ ¬ strOccurs pat em ∧ ¬ strOccurs pat ic ∧
    ¬ strOccurs pat ns ∧ ¬ strOccurs pat ms

/-- Number of occurrences of `fvar f` among the template nodes. -/
def fvarCount (f : TField) (nodes : List TNode) : Nat :=
  (nodes.filter (fun n => n == TNode.fvar f)).length

/-! Part 2: theorems.  General occurrence lemmas, the evaluation of the
template parse, the rendered normal form, and the claims. -/

theorem startsList_iff (p : List Char) : ∀ s, startsList p s = true ↔ ∃ r, s = p ++ r := by
  induction p with
  | nil => intro s; simp [startsList]
  | cons a as ih =>
    intro s
    cases s with
    | nil =>
      constructor
      · intro h
        simp [startsList] at h
      · rintro ⟨r, hr⟩
        exact absurd hr.symm (List.cons_ne_nil _ _)
    | cons b bs =>
      simp only [startsList, Bool.and_eq_true, beq_iff_eq, ih bs, List.cons_append]
      constructor
      · rintro ⟨rfl, r, rfl⟩
        exact ⟨r, rfl⟩
      · rintro ⟨r, hr⟩
        injection hr with h1 h2
        exact ⟨h1.symm, r, h2⟩

theorem occursB_iff (p : List Char) : ∀ s, occursB p s = true ↔ Occurs p s := by
  intro s
  induction s with
  | nil =>
    simp only [occursB, List.isEmpty_iff]
    constructor
    · rintro rfl
      exact ⟨[], [], rfl⟩
    · rintro ⟨a, b, h⟩
      rcases List.append_eq_nil.mp h.symm with ⟨rfl, h2⟩
      exact (List.append_eq_nil.mp h2).1
  | cons c cs ih =>
    simp only [occursB, Bool.or_eq_true, startsList_iff, ih]
    constructor
    · rintro (⟨r, hr⟩ | ⟨a, b, hab⟩)
      · exact ⟨[], r, by simpa using hr⟩
      · exact ⟨c :: a, b, by simp [hab]⟩
    · rintro ⟨a, b, hab⟩
      cases a with
      | nil => exact Or.inl ⟨b, by simpa using hab⟩
      | cons a0 as =>
        rw [List.cons_append] at hab
        injection hab with h1 h2
        exact Or.inr ⟨as, b, h2⟩

instance occursDecidable (p s : List Char) : Decidable (Occurs p s) :=
  decidable_of_iff (occursB p s = true) (occursB_iff p s)

instance strOccursDecidable (pat s : String) : Decidable (strOccurs pat s) :=
  occursDecidable pat.data s.data

instance fieldsAvoidDecidable (pat dom em ic ns ms : String) :
    Decidable (FieldsAvoid pat dom em ic ns ms) := by
  unfold FieldsAvoid
  infer_instance

theorem occurs_appendLeft {p x : List Char} (y : List Char) (h : Occurs p x) :
    Occurs p (x ++ y) := by
  rcases h with ⟨a, b, rfl⟩
  exact ⟨a, b ++ y, by simp⟩

theorem occurs_appendRight {p y : List Char} (x : List Char) (h : Occurs p y) :
    Occurs p (x ++ y) := by
  rcases h with ⟨a, b, rfl⟩
  exact ⟨x ++ a, b, by simp⟩

theorem occurs_refl (p : List Char) : Occurs p p := ⟨[], [], by simp⟩

theorem occurs_split {p x y : List Char} (h : Occurs p (x ++ y)) :
    Occurs p x ∨ Occurs p y ∨
      ∃ p1 p2, p = p1 ++ p2 ∧ p1 ≠ [] ∧ p2 ≠ [] ∧ (∃ a, x = a ++ p1) ∧ ∃ b, y = p2 ++ b := by
  rcases h with ⟨a, b, hab⟩
  rcases List.append_eq_append_iff.mp hab with ⟨w, hw1, hw2⟩ | ⟨w, hw1, hw2⟩
  · exact Or.inr (Or.inl ⟨w, b, hw2⟩)
  · rcases List.append_eq_append_iff.mp hw2 with ⟨u, hu1, hu2⟩ | ⟨u, hu1, hu2⟩
    · refine Or.inl ⟨a, u, ?_⟩
      rw [hw1, hu1]
    · by_cases hw : w = []
      · subst hw
        refine Or.inr (Or.inl ⟨[], b, ?_⟩)
        simp only [List.nil_append] at hu1
        rw [hu2, hu1]
        simp
      · by_cases hu : u = []
        · subst hu
          refine Or.inl ⟨a, [], ?_⟩
          rw [List.append_nil] at hu1
          rw [hw1, hu1]
          simp
        · exact Or.inr (Or.inr ⟨w, u, hu1, hw, hu, ⟨a, hw1⟩, ⟨b, hu2⟩⟩)

theorem not_occurs_nil {p : List Char} (hne : p ≠ []) : ¬ Occurs p [] := by
  rintro ⟨a, b, h⟩
  rcases List.append_eq_nil.mp h.symm with ⟨rfl, h2⟩
  exact hne (List.append_eq_nil.mp h2).1

theorem not_occurs_singleton {p : List Char} (c : Char) (hne : p ≠ []) (hc : c ∉ p) :
    ¬ Occurs p [c] := by
  rintro ⟨a, b, h⟩
  cases a with
  | nil =>
    simp only [List.nil_append] at h
    cases p with
    | nil => exact hne rfl
    | cons d t =>
      rw [List.cons_append] at h
      injection h with h1 h2
      exact hc (h1 ▸ List.mem_cons_self d t)
  | cons a0 as =>
    rw [List.cons_append] at h
    injection h with h1 h2
    rcases List.append_eq_nil.mp h2.symm with ⟨rfl, h3⟩
    exact hne (List.append_eq_nil.mp h3).1

theorem lastIs_sound {c : Char} {l : List Char} (h : lastIs c l = true) :
    ∃ t, l = t ++ [c] := by
  rcases List.eq_nil_or_concat' l with rfl | ⟨t, d, rfl⟩
  · simp [lastIs] at h
  · refine ⟨t, ?_⟩
    unfold lastIs at h
    rw [List.getLast?_concat] at h
    have : d = c := by simpa using h
    rw [this]

theorem headIs_sound {c : Char} {l : List Char} (h : headIs c l = true) :
    ∃ t, l = c :: t := by
  cases l with
  | nil => simp [headIs] at h
  | cons d t =>
    refine ⟨t, ?_⟩
    unfold headIs at h
    have : d = c := by simpa using h
    rw [this]

theorem headIs_append {c : Char} {l : List Char} (r : List Char) (h : headIs c l = true) :
    headIs c (l ++ r) = true := by
  cases l with
  | nil => simp [headIs] at h
  | cons d t => simpa [headIs] using h

/-- A pattern avoiding the final character of `x` cannot straddle the
junction of `x ++ y`. -/
theorem not_occurs_append_endSep {p x y : List Char} (c : Char) (hc : c ∉ p)
    (hx : lastIs c x = true) (h1 : ¬ Occurs p x) (h2 : ¬ Occurs p y) :
    ¬ Occurs p (x ++ y) := by
  intro h
  rcases occurs_split h with h | h | ⟨p1, p2, hp, hp1, hp2, ⟨a, ha⟩, ⟨b, hb⟩⟩
  · exact h1 h
  · exact h2 h
  · rcases lastIs_sound hx with ⟨t, ht⟩
    rcases List.eq_nil_or_concat' p1 with rfl | ⟨q, d, rfl⟩
    · exact hp1 rfl
    · have hxx : (a ++ q) ++ [d] = t ++ [c] := by
        rw [List.append_assoc, ← ha]
        exact ht
      have hd : [d] = [c] := List.append_inj_right' hxx rfl
      have hdc : d = c := by injection hd
      apply hc
      rw [hp, hdc]
      exact List.mem_append_left _ (List.mem_append_right _ (List.mem_singleton_self c))

/-- A pattern avoiding the first character of `y` cannot straddle the
junction of `x ++ y`. -/
theorem not_occurs_append_startSep {p x y : List Char} (c : Char) (hc : c ∉ p)
    (hy : headIs c y = true) (h1 : ¬ Occurs p x) (h2 : ¬ Occurs p y) :
    ¬ Occurs p (x ++ y) := by
  intro h
  rcases occurs_split h with h | h | ⟨p1, p2, hp, hp1, hp2, ⟨a, ha⟩, ⟨b, hb⟩⟩
  · exact h1 h
  · exact h2 h
  · rcases headIs_sound hy with ⟨t, ht⟩
    cases p2 with
    | nil => exact hp2 rfl
    | cons d p2t =>
      rw [ht, List.cons_append] at hb
      injection hb with h1' h2'
      apply hc
      rw [hp, ← h1']
      exact List.mem_append_right _ (List.mem_cons_self c p2t)

theorem not_occurs_nl {p : List Char} (hne : p ≠ []) (hnl : '\n' ∉ p) :
    ¬ Occurs p "\n".data := by
  have h : ("\n".data : List Char) = ['\n'] := rfl
  rw [h]
  exact not_occurs_singleton '\n' hne hnl

theorem parseTemplate_ext :
    parseTemplate registryIngressExtensionsYamlTemplate = some extNodes := by
  decide

theorem buildRegistryYAML_eq (domain email ingressClass nspace maxSize : String)
    (staging hasNetworking : Bool) :
    buildRegistryYAML domain email ingressClass nspace maxSize staging hasNetworking =
      Except.ok (render (regInput domain email ingressClass nspace maxSize staging) extNodes) := by
  unfold buildRegistryYAML
  simp only [parseTemplate_ext]
  cases staging <;> rcases hc : ingressClass == "nginx" <;>
    simp [regInput, issuerTypeOf, issuerAPIOf, nginxBufferOf, proxyBodySizeLineStart, hc]

theorem render_extNodes_data (d : RegInputData) :
    (render d extNodes).data = outData d := by
  simp [extNodes, render, evalNode, fieldVal, outData, String.data_append]

theorem nginxBufferOf_off (ic ms : String) (h : ic ≠ "nginx") : nginxBufferOf ic ms = "" := by
  unfold nginxBufferOf
  have hc : (ic == "nginx") = false := beq_eq_false_iff_ne.mpr h
  simp [hc]

theorem not_occurs_nginxBufferOf {p : List Char} (ic ms : String)
    (hne : p ≠ []) (hsp : ' ' ∉ p)
    (hPre : ¬ Occurs p proxyBodySizeLineStart.data)
    (hms : ¬ Occurs p ms.data) :
    ¬ Occurs p (nginxBufferOf ic ms).data := by
  unfold nginxBufferOf
  rcases hc : ic == "nginx"
  · have hempty : ("".data : List Char) = [] := rfl
    simp only [hc, Bool.false_eq_true, if_false, hempty]
    exact not_occurs_nil hne
  · simp only [hc, if_true, String.data_append]
    exact not_occurs_append_endSep ' ' hsp (by decide) hPre hms

/-- Master lemma: a nonempty pattern containing neither a space nor a
newline occurs in the rendered output only if it occurs in one of the
eleven literal segments or in one of the substituted field values. -/
theorem not_occurs_outData (p : List Char) (d : RegInputData)
    (hne : p ≠ []) (hsp : ' ' ∉ p) (hnl : '\n' ∉ p)
    (h0 : ¬ Occurs p L0.data) (h1 : ¬ Occurs p L1.data) (h2 : ¬ Occurs p L2.data)
    (h3 : ¬ Occurs p L3.data) (h4 : ¬ Occurs p L4.data) (h5 : ¬ Occurs p L5.data)
    (h6 : ¬ Occurs p L6.data) (h7 : ¬ Occurs p L7.data) (h8 : ¬ Occurs p L8.data)
    (h9 : ¬ Occurs p L9.data) (h10 : ¬ Occurs p L10.data)
    (hNs : ¬ Occurs p d.Namespace.data) (hIt : ¬ Occurs p d.IssuerType.data)
    (hIc : ¬ Occurs p d.IngressClass.data) (hBuf : ¬ Occurs p d.NginxMaxBuffer.data)
    (hDom : ¬ Occurs p d.IngressDomain.data) (hEm : ¬ Occurs p d.CertmanagerEmail.data)
    (hApi : ¬ Occurs p d.IssuerAPI.data) :
    ¬ Occurs p (outData d) := by
  unfold outData
  apply not_occurs_append_endSep ' ' hsp (by decide) h0
  apply not_occurs_append_startSep '\n' hnl (headIs_append _ (by decide)) hNs
  apply not_occurs_append_endSep ' ' hsp (by decide) h1
  apply not_occurs_append_startSep '\n' hnl (headIs_append _ (by decide)) hIt
  apply not_occurs_append_endSep ' ' hsp (by decide) h2
  apply not_occurs_append_startSep '\n' hnl (headIs_append _ (by decide)) hIc
  apply not_occurs_append_endSep '\n' hnl (by decide) (not_occurs_nl hne hnl)
  apply not_occurs_append_startSep '\n' hnl (headIs_append _ (by decide)) hBuf
  apply not_occurs_append_endSep ' ' hsp (by decide) h3
  apply not_occurs_append_startSep '\n' hnl (headIs_append _ (by decide)) hDom
  apply not_occurs_append_endSep ' ' hsp (by decide) h4
  apply not_occurs_append_startSep '\n' hnl (headIs_append _ (by decide)) hDom
  apply not_occurs_append_endSep ' ' hsp (by decide) h5
  apply not_occurs_append_startSep '\n' hnl (headIs_append _ (by decide)) hIt
  apply not_occurs_append_endSep ' ' hsp (by decide) h6
  apply not_occurs_append_startSep '\n' hnl (headIs_append _ (by decide)) hNs
  apply not_occurs_append_endSep ' ' hsp (by decide) h7
  apply not_occurs_append_startSep '\n' hnl (headIs_append _ (by decide)) hEm
  apply not_occurs_append_endSep ' ' hsp (by decide) h8
  apply not_occurs_append_startSep '\n' hnl (headIs_append _ (by decide)) hApi
  apply not_occurs_append_endSep ' ' hsp (by decide) h9
  apply not_occurs_append_startSep '\n' hnl (headIs_append _ (by decide)) hIt
  exact not_occurs_append_endSep ' ' hsp (by decide) h10 hIc

theorem occurs_outData_issuerType (p : List Char) (d : RegInputData)
    (hp : Occurs p d.IssuerType.data) : Occurs p (outData d) := by
  unfold outData
  iterate 3 apply occurs_appendRight
  exact occurs_appendLeft _ hp

theorem occurs_outData_issuerAPI (p : List Char) (d : RegInputData)
    (hp : Occurs p d.IssuerAPI.data) : Occurs p (outData d) := by
  unfold outData
  iterate 19 apply occurs_appendRight
  exact occurs_appendLeft _ hp

theorem occurs_outData_domainHost (p : List Char) (d : RegInputData)
    (hp : Occurs p d.IngressDomain.data) : Occurs p (outData d) := by
  unfold outData
  iterate 9 apply occurs_appendRight
  exact occurs_appendLeft _ hp

theorem occurs_outData_buffer (p : List Char) (d : RegInputData)
    (hp : Occurs p d.NginxMaxBuffer.data) : Occurs p (outData d) := by
  unfold outData
  iterate 7 apply occurs_appendRight
  exact occurs_appendLeft _ hp

/-- C8: for every configuration, `buildRegistryYAML` returns the identical
byte sequence for `hasNetworking = true` and `hasNetworking = false`: the
capability flag is accepted as a parameter but has no influence on the
output. -/
theorem c8_capability_flag_no_influence (dom em ic ns ms : String) (st : Bool) :
    buildRegistryYAML dom em ic ns ms st true = buildRegistryYAML dom em ic ns ms st false := rfl

/-- C1 (code bug): even with `hasNetworking = true`, `buildRegistryYAML`
renders the extensions/v1beta1 template, so the output carries the legacy
API group and contains neither `networking.k8s.io/v1` nor `pathType`,
contradicting the claimed template selection. -/
theorem c1_hasNetworking_ignored_output :
    ∃ out, buildRegistryYAML "registry.example.com" "a@b.com" "nginx" "default" "200m"
        false true = Except.ok out ∧
      strOccurs "apiVersion: extensions/v1beta1" out ∧
      ¬ strOccurs "networking.k8s.io/v1" out ∧
      ¬ strOccurs "pathType" out := by
  refine ⟨_, buildRegistryYAML_eq "registry.example.com" "a@b.com" "nginx" "default" "200m"
    false true, ?_, ?_, ?_⟩ <;> decide

/-- C4: for every pair of non-empty domain and email strings (and any
values of the other fields), `buildRegistryYAML` returns a rendered byte
sequence and never returns an error. -/
theorem c4_build_never_errors (dom em ic ns ms : String) (st hn : Bool)
    (hdom : dom ≠ "") (hem : em ≠ "") :
    ∃ out, buildRegistryYAML dom em ic ns ms st hn = Except.ok out :=
  ⟨_, buildRegistryYAML_eq dom em ic ns ms st hn⟩

/-- Witness for C4 at a concrete valid configuration. -/
theorem c4_build_never_errors_witness :
    ∃ out, buildRegistryYAML "registry.example.com" "openfaas@example.com" "nginx" "default"
      "200m" false true = Except.ok out :=
  c4_build_never_errors "registry.example.com" "openfaas@example.com" "nginx" "default"
    "200m" false true (by decide) (by decide)

/-- C9: for every configuration whose ingress class is not "nginx", the
output of `buildRegistryYAML` is independent of the max-size string. -/
theorem c9_maxSize_no_influence_off_nginx (dom em ic ns ms1 ms2 : String) (st hn : Bool)
    (h : ic ≠ "nginx") :
    buildRegistryYAML dom em ic ns ms1 st hn = buildRegistryYAML dom em ic ns ms2 st hn := by
  rw [buildRegistryYAML_eq, buildRegistryYAML_eq]
  have hc : (ic == "nginx") = false := beq_eq_false_iff_ne.mpr h
  simp [regInput, nginxBufferOf, hc]

/-- Witness for C9 with ingress class "traefik" and two max sizes. -/
theorem c9_maxSize_no_influence_off_nginx_witness :
    buildRegistryYAML "registry.example.com" "a@b.com" "traefik" "default" "100m" false true =
      buildRegistryYAML "registry.example.com" "a@b.com" "traefik" "default" "999m" false true :=
  c9_maxSize_no_influence_off_nginx "registry.example.com" "a@b.com" "traefik" "default"
    "100m" "999m" false true (by decide)

/-- C7 counterexample: the legacy (extensions/v1beta1) template does not
contain a bare `service` keyword ending a line; its backend block is the
well-formed `serviceName`/`servicePort` pair, so the claimed defect is not
in the legacy template. -/
theorem c7_counterexample_legacy_template_well_formed :
    ¬ strOccurs "service\n" registryIngressExtensionsYamlTemplate := by
  decide

/-- C7 amended: the bare `service` keyword without a colon before the
nested name/port fields sits in the networking (networking.k8s.io/v1)
template, while the legacy template uses `serviceName:`/`servicePort:`. -/
theorem c7_bare_service_in_networking_template :
    strOccurs "          service\n            name: docker-registry"
        registryIngressNetworkingYamlTemplate ∧
      ¬ strOccurs "service\n" registryIngressExtensionsYamlTemplate ∧
      strOccurs "serviceName: docker-registry" registryIngressExtensionsYamlTemplate ∧
      strOccurs "servicePort: 5000" registryIngressExtensionsYamlTemplate :=
  ⟨by decide, by decide, by decide, by decide⟩

/-- C6 counterexample: with domain "docker-registry" the rendered output
contains the domain string at more than two positions, because the fixed
template text also contains `docker-registry`. -/
theorem c6_counterexample_domain_collision :
    ∃ out, buildRegistryYAML "docker-registry" "a@b.com" "nginx" "default" "200m"
        false true = Except.ok out ∧
      occCount "docker-registry".data out.data ≠ 2 := by
  refine ⟨_, buildRegistryYAML_eq "docker-registry" "a@b.com" "nginx" "default" "200m"
    false true, ?_⟩
  decide

/-- C6 amended: the template references the domain field at exactly two
substitution sites, the rule host (after "- host: ") and the TLS hosts
entry (after "    - "), so every rendered output embeds the domain value
at those two positions. -/
theorem c6_domain_two_substitution_sites (dom em ic ns ms : String) (st hn : Bool) :
    fvarCount TField.IngressDomain extNodes = 2 ∧
    ∃ out, buildRegistryYAML dom em ic ns ms st hn = Except.ok out ∧
      ∃ A B C : List Char,
        out.data = A ++ (dom.data ++ (B ++ (dom.data ++ C))) ∧
        (∃ A0, A = A0 ++ "- host: ".data) ∧
        (∃ B0, B = B0 ++ "    - ".data) := by
  refine ⟨by decide, _, buildRegistryYAML_eq dom em ic ns ms st hn, ?_⟩
  refine ⟨L0.data ++ (ns.data ++ (L1.data ++ ((issuerTypeOf st).data ++ (L2.data ++
      (ic.data ++ ("\n".data ++ ((nginxBufferOf ic ms).data ++ L3.data))))))),
    L4.data,
    L5.data ++ ((issuerTypeOf st).data ++ (L6.data ++ (ns.data ++ (L7.data ++ (em.data ++
      (L8.data ++ ((issuerAPIOf st).data ++ (L9.data ++ ((issuerTypeOf st).data ++
      (L10.data ++ ic.data)))))))))),
    ?_, ?_, ?_⟩
  · rw [render_extNodes_data]
    simp only [outData, regInput]
    simp [List.append_assoc]
  · refine ⟨L0.data ++ (ns.data ++ (L1.data ++ ((issuerTypeOf st).data ++ (L2.data ++
      (ic.data ++ ("\n".data ++ ((nginxBufferOf ic ms).data ++
      "\nspec:\n  rules:\n  ".data))))))), ?_⟩
    rw [show L3.data = "\nspec:\n  rules:\n  ".data ++ "- host: ".data from by decide]
    simp [List.append_assoc]
  · exact ⟨"\n    http:\n      paths:\n      - backend:\n          serviceName: docker-registry\n          servicePort: 5000\n        path: /\n  tls:\n  - hosts:\n".data,
      by decide⟩

/-- C2 counterexample: with a domain string that itself contains the
staging issuer name and staging ACME URL, a `staging = false` run renders
an output containing both literal pairs at once. -/
theorem c2_counterexample_both_pairs :
    ∃ out, buildRegistryYAML
        "letsencrypt-staging-issuer https://acme-staging-v02.api.letsencrypt.org/directory"
        "a@b.com" "nginx" "default" "200m" false true = Except.ok out ∧
      strOccurs "letsencrypt-prod-issuer" out ∧
      strOccurs "https://acme-v02.api.letsencrypt.org/directory" out ∧
      strOccurs "letsencrypt-staging-issuer" out ∧
      strOccurs "https://acme-staging-v02.api.letsencrypt.org/directory" out := by
  refine ⟨_, buildRegistryYAML_eq
    "letsencrypt-staging-issuer https://acme-staging-v02.api.letsencrypt.org/directory"
    "a@b.com" "nginx" "default" "200m" false true, ?_, ?_, ?_, ?_⟩ <;> decide

/-- C2 amended: `staging = false` selects the production issuer pair and
`staging = true` the staging pair, and the output never contains both
pairs at once provided the user-supplied fields do not themselves contain
an issuer-name literal. -/
theorem c2_issuer_pair_selection (dom em ic ns ms : String) (st hn : Bool)
    (hStag : FieldsAvoid "letsencrypt-staging-issuer" dom em ic ns ms)
    (hProd : FieldsAvoid "letsencrypt-prod-issuer" dom em ic ns ms) :
    ∃ out, buildRegistryYAML dom em ic ns ms st hn = Except.ok out ∧
      (st = false → strOccurs "letsencrypt-prod-issuer" out ∧
        strOccurs "https://acme-v02.api.letsencrypt.org/directory" out) ∧
      (st = true → strOccurs "letsencrypt-staging-issuer" out ∧
        strOccurs "https://acme-staging-v02.api.letsencrypt.org/directory" out) ∧
      ¬ ((strOccurs "letsencrypt-prod-issuer" out ∧
          strOccurs "https://acme-v02.api.letsencrypt.org/directory" out) ∧
         (strOccurs "letsencrypt-staging-issuer" out ∧
          strOccurs "https://acme-staging-v02.api.letsencrypt.org/directory" out)) := by
  obtain ⟨hd1, he1, hi1, hn1, hm1⟩ := hStag
  obtain ⟨hd2, he2, hi2, hn2, hm2⟩ := hProd
  cases st with
  | false =>
    refine ⟨_, buildRegistryYAML_eq dom em ic ns ms false hn, ?_, ?_, ?_⟩
    · intro _
      constructor
      · unfold strOccurs
        rw [render_extNodes_data]
        exact occurs_outData_issuerType _ _ (occurs_refl _)
      · unfold strOccurs
        rw [render_extNodes_data]
        exact occurs_outData_issuerAPI _ _ (occurs_refl _)
    · intro h
      exact Bool.noConfusion h
    · rintro ⟨-, hstagIss, -⟩
      unfold strOccurs at hstagIss
      rw [render_extNodes_data] at hstagIss
      exact not_occurs_outData "letsencrypt-staging-issuer".data
        (regInput dom em ic ns ms false) (by decide) (by decide) (by decide)
        (by decide) (by decide) (by decide) (by decide) (by decide) (by decide)
        (by decide) (by decide) (by decide) (by decide) (by decide)
        hn1
        (by decide : ¬ Occurs "letsencrypt-staging-issuer".data (issuerTypeOf false).data)
        hi1
        (not_occurs_nginxBufferOf ic ms (by decide) (by decide) (by decide) hm1)
        hd1 he1
        (by decide : ¬ Occurs "letsencrypt-staging-issuer".data (issuerAPIOf false).data)
        hstagIss
  | true =>
    refine ⟨_, buildRegistryYAML_eq dom em ic ns ms true hn, ?_, ?_, ?_⟩
    · intro h
      exact Bool.noConfusion h
    · intro _
      constructor
      · unfold strOccurs
        rw [render_extNodes_data]
        exact occurs_outData_issuerType _ _ (occurs_refl _)
      · unfold strOccurs
        rw [render_extNodes_data]
        exact occurs_outData_issuerAPI _ _ (occurs_refl _)
    · rintro ⟨⟨hprodIss, -⟩, -⟩
      unfold strOccurs at hprodIss
      rw [render_extNodes_data] at hprodIss
      exact not_occurs_outData "letsencrypt-prod-issuer".data
        (regInput dom em ic ns ms true) (by decide) (by decide) (by decide)
        (by decide) (by decide) (by decide) (by decide) (by decide) (by decide)
        (by decide) (by decide) (by decide) (by decide) (by decide)
        hn2
        (by decide : ¬ Occurs "letsencrypt-prod-issuer".data (issuerTypeOf true).data)
        hi2
        (not_occurs_nginxBufferOf ic ms (by decide) (by decide) (by decide) hm2)
        hd2 he2
        (by decide : ¬ Occurs "letsencrypt-prod-issuer".data (issuerAPIOf true).data)
        hprodIss

/-- Witness for C2 at a concrete configuration whose fields contain no
issuer-name literal. -/
theorem c2_issuer_pair_selection_witness :
    ∃ out, buildRegistryYAML "registry.example.com" "a@b.com" "nginx" "default" "200m"
        false true = Except.ok out ∧
      (false = false → strOccurs "letsencrypt-prod-issuer" out ∧
        strOccurs "https://acme-v02.api.letsencrypt.org/directory" out) ∧
      (false = true → strOccurs "letsencrypt-staging-issuer" out ∧
        strOccurs "https://acme-staging-v02.api.letsencrypt.org/directory" out) ∧
      ¬ ((strOccurs "letsencrypt-prod-issuer" out ∧
          strOccurs "https://acme-v02.api.letsencrypt.org/directory" out) ∧
         (strOccurs "letsencrypt-staging-issuer" out ∧
          strOccurs "https://acme-staging-v02.api.letsencrypt.org/directory" out)) :=
  c2_issuer_pair_selection "registry.example.com" "a@b.com" "nginx" "default" "200m"
    false true (by decide) (by decide)

/-- C3 counterexample: with ingress class "traefik" but a domain string
that contains the annotation key, the rendered output still contains
`nginx.ingress.kubernetes.io/proxy-body-size`. -/
theorem c3_counterexample_annotation_via_domain :
    ∃ out, buildRegistryYAML "nginx.ingress.kubernetes.io/proxy-body-size: 1m" "a@b.com"
        "traefik" "default" "200m" false true = Except.ok out ∧
      strOccurs "nginx.ingress.kubernetes.io/proxy-body-size" out := by
  refine ⟨_, buildRegistryYAML_eq "nginx.ingress.kubernetes.io/proxy-body-size: 1m" "a@b.com"
    "traefik" "default" "200m" false true, ?_⟩
  decide

/-- C3 amended: with ingress class "nginx" the output contains the
proxy-body-size annotation with the configured max-size value; with any
other ingress class the annotation key is absent provided no user field
contains it. -/
theorem c3_proxy_body_size_behavior (dom em ns ms : String) (st hn : Bool) :
    (∃ out, buildRegistryYAML dom em "nginx" ns ms st hn = Except.ok out ∧
       strOccurs ("nginx.ingress.kubernetes.io/proxy-body-size: " ++ ms) out) ∧
    ∀ ic, ic ≠ "nginx" →
      ¬ strOccurs "nginx.ingress.kubernetes.io/proxy-body-size" dom →
      ¬ strOccurs "nginx.ingress.kubernetes.io/proxy-body-size" em →
      ¬ strOccurs "nginx.ingress.kubernetes.io/proxy-body-size" ic →
      ¬ strOccurs "nginx.ingress.kubernetes.io/proxy-body-size" ns →
      ∃ out, buildRegistryYAML dom em ic ns ms st hn = Except.ok out ∧
        ¬ strOccurs "nginx.ingress.kubernetes.io/proxy-body-size" out := by
  constructor
  · refine ⟨_, buildRegistryYAML_eq dom em "nginx" ns ms st hn, ?_⟩
    unfold strOccurs
    rw [render_extNodes_data]
    apply occurs_outData_buffer
    show Occurs ("nginx.ingress.kubernetes.io/proxy-body-size: " ++ ms).data
      (proxyBodySizeLineStart ++ ms).data
    refine ⟨"    ".data, [], ?_⟩
    rw [String.data_append, String.data_append]
    rw [show proxyBodySizeLineStart.data =
      "    ".data ++ "nginx.ingress.kubernetes.io/proxy-body-size: ".data from by decide]
    simp [List.append_assoc]
  · intro ic hic hdom hem hicc hns
    refine ⟨_, buildRegistryYAML_eq dom em ic ns ms st hn, ?_⟩
    unfold strOccurs
    rw [render_extNodes_data]
    exact not_occurs_outData "nginx.ingress.kubernetes.io/proxy-body-size".data
      (regInput dom em ic ns ms st) (by decide) (by decide) (by decide)
      (by decide) (by decide) (by decide) (by decide) (by decide) (by decide)
      (by decide) (by decide) (by decide) (by decide) (by decide)
      hns
      (by cases st <;> decide :
        ¬ Occurs "nginx.ingress.kubernetes.io/proxy-body-size".data (issuerTypeOf st).data)
      hicc
      (show ¬ Occurs "nginx.ingress.kubernetes.io/proxy-body-size".data
          (nginxBufferOf ic ms).data by
        rw [nginxBufferOf_off ic ms hic]
        exact not_occurs_nil (by decide))
      hdom hem
      (by cases st <;> decide :
        ¬ Occurs "nginx.ingress.kubernetes.io/proxy-body-size".data (issuerAPIOf st).data)

/-- Witness for C3: annotation present for "nginx", absent for "traefik",
at a concrete configuration. -/
theorem c3_proxy_body_size_behavior_witness :
    (∃ out, buildRegistryYAML "registry.example.com" "a@b.com" "nginx" "default" "200m"
        false true = Except.ok out ∧
      strOccurs ("nginx.ingress.kubernetes.io/proxy-body-size: " ++ "200m") out) ∧
    (∃ out, buildRegistryYAML "registry.example.com" "a@b.com" "traefik" "default" "200m"
        false true = Except.ok out ∧
      ¬ strOccurs "nginx.ingress.kubernetes.io/proxy-body-size" out) := by
  have h := c3_proxy_body_size_behavior "registry.example.com" "a@b.com" "default" "200m"
    false true
  exact ⟨h.1, h.2 "traefik" (by decide) (by decide) (by decide) (by decide) (by decide)⟩

/-- C10: for every configuration whose ingress class is not "nginx", the
`NginxMaxBuffer` placeholder line is emitted empty, so the output contains
an empty line between the ingress.class annotation line and the `spec:`
line. -/
theorem c10_empty_annotation_line (dom em ic ns ms : String) (st hn : Bool)
    (h : ic ≠ "nginx") :
    ∃ out, buildRegistryYAML dom em ic ns ms st hn = Except.ok out ∧
      strOccurs ("kubernetes.io/ingress.class: " ++ ic ++ "\n\nspec:") out := by
  refine ⟨_, buildRegistryYAML_eq dom em ic ns ms st hn, ?_⟩
  unfold strOccurs
  rw [render_extNodes_data]
  simp only [outData, regInput]
  rw [nginxBufferOf_off ic ms h]
  rw [show ("".data : List Char) = [] from rfl]
  iterate 4 apply occurs_appendRight
  refine ⟨"\n    ".data,
    "\n  rules:\n  - host: ".data ++ (dom.data ++ (L4.data ++ (dom.data ++ (L5.data ++
      ((issuerTypeOf st).data ++ (L6.data ++ (ns.data ++ (L7.data ++ (em.data ++
      (L8.data ++ ((issuerAPIOf st).data ++ (L9.data ++ ((issuerTypeOf st).data ++
      (L10.data ++ ic.data)))))))))))))), ?_⟩
  rw [show L2.data = "\n    ".data ++ "kubernetes.io/ingress.class: ".data from by decide]
  rw [show ("kubernetes.io/ingress.class: " ++ ic ++ "\n\nspec:").data =
    "kubernetes.io/ingress.class: ".data ++ ic.data ++ "\n\nspec:".data from by
      simp [String.data_append]]
  rw [show ("\n\nspec:".data : List Char) = "\n".data ++ "\nspec:".data from by decide]
  rw [show L3.data = "\nspec:".data ++ "\n  rules:\n  - host: ".data from by decide]
  simp [List.append_assoc]

/-- Witness for C10 with ingress class "traefik". -/
theorem c10_empty_annotation_line_witness :
    ∃ out, buildRegistryYAML "registry.example.com" "a@b.com" "traefik" "default" "200m"
        false true = Except.ok out ∧
      strOccurs ("kubernetes.io/ingress.class: " ++ "traefik" ++ "\n\nspec:") out :=
  c10_empty_annotation_line "registry.example.com" "a@b.com" "traefik" "default" "200m"
    false true (by decide)

/-- C5: if the email, domain or ingress-class flag is empty, the command
returns the corresponding validation error and neither the template
rendering stage nor the external apply stage runs (the kubeconfig setup
collaborator, which the code calls first, is assumed to succeed). -/
theorem c5_validation_before_render_and_apply (f : RegIngressFlags) (deps : RegIngressDeps)
    (hk : deps.setKubeconfig f.kubeconfig = Except.ok ())
    (h : f.email = "" ∨ f.domain = "" ∨ f.ingressClass = "") :
    (∃ m, (makeInstallRegistryIngressRunE f deps).1 = Except.error m ∧
        (m = "both --email and --domain flags should be set and not empty, please set these values" ∨
         m = "--ingress-class must be set")) ∧
      RegIngressStep.renderStep ∉ (makeInstallRegistryIngressRunE f deps).2 ∧
      RegIngressStep.applyStep ∉ (makeInstallRegistryIngressRunE f deps).2 := by
  by_cases h1 : f.email = "" ∨ f.domain = ""
  · have hrun : makeInstallRegistryIngressRunE f deps =
        (Except.error "both --email and --domain flags should be set and not empty, please set these values",
         [RegIngressStep.setKubeconfigStep]) := by
      simp only [makeInstallRegistryIngressRunE, hk]
      rw [if_pos h1]
    rw [hrun]
    exact ⟨⟨_, rfl, Or.inl rfl⟩, by decide, by decide⟩
  · have h2 : f.ingressClass = "" := by
      rcases h with h | h | h
      · exact absurd (Or.inl h) h1
      · exact absurd (Or.inr h) h1
      · exact h
    have hrun : makeInstallRegistryIngressRunE f deps =
        (Except.error "--ingress-class must be set", [RegIngressStep.setKubeconfigStep]) := by
      simp only [makeInstallRegistryIngressRunE, hk]
      rw [if_neg h1, if_pos h2]
    rw [hrun]
    exact ⟨⟨_, rfl, Or.inr rfl⟩, by decide, by decide⟩

/-- Witness for C5: empty email flag with trivially succeeding
collaborators. -/
theorem c5_validation_before_render_and_apply_witness :
    (∃ m, (makeInstallRegistryIngressRunE
        ⟨"", "", "registry.example.com", "nginx", "default", "200m", false⟩
        ⟨fun _ => Except.ok (), Except.ok (fun _ => true),
         fun _ _ => Except.ok "temp_registry_ingress.yaml",
         fun _ => Except.ok ⟨0, ""⟩⟩).1 = Except.error m ∧
        (m = "both --email and --domain flags should be set and not empty, please set these values" ∨
         m = "--ingress-class must be set")) ∧
      RegIngressStep.renderStep ∉ (makeInstallRegistryIngressRunE
        ⟨"", "", "registry.example.com", "nginx", "default", "200m", false⟩
        ⟨fun _ => Except.ok (), Except.ok (fun _ => true),
         fun _ _ => Except.ok "temp_registry_ingress.yaml",
         fun _ => Except.ok ⟨0, ""⟩⟩).2 ∧
      RegIngressStep.applyStep ∉ (makeInstallRegistryIngressRunE
        ⟨"", "", "registry.example.com", "nginx", "default", "200m", false⟩
        ⟨fun _ => Except.ok (), Except.ok (fun _ => true),
         fun _ _ => Except.ok "temp_registry_ingress.yaml",
         fun _ => Except.ok ⟨0, ""⟩⟩).2 :=
  c5_validation_before_render_and_apply _ _ rfl (Or.inl rfl)
